import Mathlib

/-!
Shallow embedding of `src/import_students.py`, a sequential import script:
it polls a health endpoint, checks an import-status endpoint, verifies a
fixed local file exists, uploads the file, and maps the outcome to a
process exit code. The script is modelled as a pure function of a `World`
describing the environment (outcomes of each network request and the
file-system check); a run returns its boolean result together with a trace
of observable events (network requests issued, sleeps, and the
imported-count log line).
-/

/-- Outcome of one GET to the health endpoint (line 19 of the source):
either the request raised an exception, or it returned a response with the
given HTTP status code. -/
inductive HealthResult where
  | exn
  | status (code : Nat)
  deriving DecidableEq

/-- Parsed JSON body of the import-status response (line 41). `imported`
is the truthiness of `status.get('imported')`; an absent or falsy field is
`false`. -/
structure StatusJson where
  imported : Bool
  deriving DecidableEq

/-- Outcome of the GET to the import-status endpoint (line 39): an
exception, or a response with a status code and a body. `body = none`
means the body is not parseable as JSON, so `response.json()` raises when
called. -/
inductive StatusResult where
  | exn
  | resp (code : Nat) (body : Option StatusJson)
  deriving DecidableEq

/-- Parsed JSON body of the upload response (line 64): truthiness of the
`success` field, plus the optional `message` string and optional
`imported` count used by the log lines 66 and 67. -/
structure UploadJson where
  success : Bool
  message : Option String
  imported : Option Int
  deriving DecidableEq

/-- Outcome of the POST to the import endpoint (line 61): an exception, or
a response with a status code, a body (`none` = not parseable as JSON, so
`response.json()` raises), and the raw text used by the log line 73. -/
inductive UploadResult where
  | exn
  | resp (code : Nat) (body : Option UploadJson) (text : String)
  deriving DecidableEq

/-- Observable events of one run: a health GET for a given attempt index,
a `time.sleep` of a given duration, the import-status GET, the upload
POST, and the imported-count log line emitted on upload success
(line 67). -/
inductive Event where
  | healthReq (attempt : Nat)
  | sleep (duration : Nat)
  | statusReq
  | uploadReq
  | logImported (count : Option Int)
  deriving DecidableEq

/-- The environment a run executes against: the outcome of the health GET
at each attempt index, the outcome of the import-status GET, whether the
fixed document file exists, its size, and the outcome of the upload
POST. -/
structure World where
  health : Nat → HealthResult
  statusCheck : StatusResult
  fileExists : Bool
  fileSize : Nat
  upload : UploadResult

/-- Loop body of `wait_for_server` (lines 17-25): at each remaining
attempt, issue the health GET; a response with status code exactly 200
returns `True` at once; an exception logs a waiting message and sleeps
`delay` before the next attempt; any other response falls through to the
next attempt with no sleep. Exhausting the attempts returns `False`
(line 28). -/
def wait_for_server_aux (w : World) (delay : Nat) : Nat → Nat → Bool × List Event
  | _, 0 => (false, [])
  | attempt, fuel + 1 =>
    match w.health attempt with
    | HealthResult.status code =>
      if code = 200 then (true, [Event.healthReq attempt])
      else
        let rest := wait_for_server_aux w delay (attempt + 1) fuel
        (rest.1, Event.healthReq attempt :: rest.2)
    | HealthResult.exn =>
      let rest := wait_for_server_aux w delay (attempt + 1) fuel
      (rest.1, Event.healthReq attempt :: Event.sleep delay :: rest.2)

/-- `wait_for_server(max_attempts=30, delay=5)` (line 15): run the loop
from attempt 0 with `max_attempts` attempts remaining. -/
def wait_for_server (w : World) (max_attempts : Nat := 30) (delay : Nat := 5) :
    Bool × List Event :=
  wait_for_server_aux w delay 0 max_attempts

/-- The condition under which the status-check block (lines 38-46) returns
`True` early: the import-status GET returned a response with status code
200 whose body parsed as JSON and whose `imported` field is truthy. In
every other case (exception, non-200 status, unparseable body, falsy
field) execution continues past the block; an exception is caught at line
45 and only logged as a warning. -/
def statusConfirmsImported : StatusResult → Bool
  | StatusResult.resp code (some s) => code == 200 && s.imported
  | _ => false

/-- The upload try-block (lines 58-78): issue the POST; an exception
(including a `response.json()` parse failure when the status code is 200)
returns `False`; status 200 with a body whose `success` field is truthy
logs the imported count and returns `True`; status 200 with falsy
`success` returns `False`; any other status code returns `False`. The
returned trace holds the events of this block alone. -/
def uploadPhase (w : World) : Bool × List Event :=
  match w.upload with
  | UploadResult.exn => (false, [Event.uploadReq])
  | UploadResult.resp code body _text =>
    if code = 200 then
      match body with
      | none => (false, [Event.uploadReq])
      | some result =>
        if result.success then
          (true, [Event.uploadReq, Event.logImported result.imported])
        else (false, [Event.uploadReq])
    else (false, [Event.uploadReq])

/-- `import_students()` (lines 30-78): wait for the server, returning
`False` on exhaustion (line 34); check the import status and return
`True` if a prior import is confirmed (lines 38-46); return `False` if the
document file is missing (lines 51-53); otherwise upload the file and
return the outcome of the upload block. The trace collects the events of
each phase in order. -/
def import_students (w : World) : Bool × List Event :=
  if (wait_for_server w).1 = false then
    (false, (wait_for_server w).2)
  else if statusConfirmsImported w.statusCheck = true then
    (true, (wait_for_server w).2 ++ [Event.statusReq])
  else if w.fileExists = false then
    (false, (wait_for_server w).2 ++ [Event.statusReq])
  else
    ((uploadPhase w).1,
      (wait_for_server w).2 ++ [Event.statusReq] ++ (uploadPhase w).2)

/-- The `__main__` block (lines 80-86): `sys.exit(0 if success else 1)`. -/
def main_exit_code (w : World) : Nat :=
  if (import_students w).1 = true then 0 else 1

/-- Recognizer for the upload POST event. -/
def isUploadReq : Event → Bool
  | Event.uploadReq => true
  | _ => false

/-- Number of upload POSTs recorded in a trace. -/
def uploadCount (tr : List Event) : Nat :=
  tr.countP isUploadReq

/-- Every event the wait loop records is a health request or a sleep of
the configured delay. -/
theorem wait_aux_events (w : World) (d : Nat) :
    ∀ fuel a e, e ∈ (wait_for_server_aux w d a fuel).2 →
      (∃ m, e = Event.healthReq m) ∨ e = Event.sleep d := by
  intro fuel
  induction fuel with
  | zero =>
    intro a e he
    simp [wait_for_server_aux] at he
  | succ n ih =>
    intro a e he
    cases hh : w.health a with
    | status code =>
      by_cases hc : code = 200
      · simp [wait_for_server_aux, hh, hc] at he
        exact Or.inl ⟨a, he⟩
      · simp [wait_for_server_aux, hh, hc] at he
        rcases he with he | he
        · exact Or.inl ⟨a, he⟩
        · exact ih (a + 1) e he
    | exn =>
      simp [wait_for_server_aux, hh] at he
      rcases he with he | he | he
      · exact Or.inl ⟨a, he⟩
      · exact Or.inr he
      · exact ih (a + 1) e he

/-- The wait loop never issues the import-status GET. -/
theorem wait_no_statusReq (w : World) :
    Event.statusReq ∉ (wait_for_server w).2 := by
  intro h
  rcases wait_aux_events w 5 30 0 Event.statusReq h with ⟨m, hm⟩ | hm <;>
    simp at hm

/-- The wait loop never issues the upload POST. -/
theorem wait_no_uploadReq (w : World) :
    Event.uploadReq ∉ (wait_for_server w).2 := by
  intro h
  rcases wait_aux_events w 5 30 0 Event.uploadReq h with ⟨m, hm⟩ | hm <;>
    simp at hm

/-- The trace of the wait loop counts zero upload POSTs. -/
theorem wait_uploadCount (w : World) :
    uploadCount (wait_for_server w).2 = 0 := by
  rw [uploadCount, List.countP_eq_zero]
  intro e he
  rcases wait_aux_events w 5 30 0 e he with ⟨m, hm⟩ | hm <;>
    simp [hm, isUploadReq]

/-- If no attempt within the budget returns status 200, the wait loop
returns failure. -/
theorem wait_aux_never_ok (w : World) (d : Nat) :
    ∀ fuel a, (∀ k, k < fuel → w.health (a + k) ≠ HealthResult.status 200) →
      (wait_for_server_aux w d a fuel).1 = false := by
  intro fuel
  induction fuel with
  | zero => intro a _; simp [wait_for_server_aux]
  | succ n ih =>
    intro a hfail
    have h0 : w.health a ≠ HealthResult.status 200 := by
      have := hfail 0 (Nat.succ_pos n)
      simpa using this
    have hshift : ∀ k, k < n → w.health (a + 1 + k) ≠ HealthResult.status 200 := by
      intro k hk
      have := hfail (k + 1) (by omega)
      have harith : a + (k + 1) = a + 1 + k := by omega
      rwa [harith] at this
    cases hh : w.health a with
    | status code =>
      have hc : code ≠ 200 := by
        intro hc; exact h0 (by rw [hh, hc])
      simp [wait_for_server_aux, hh, hc]
      exact ih (a + 1) hshift
    | exn =>
      simp [wait_for_server_aux, hh]
      exact ih (a + 1) hshift

/-- The upload block always issues the POST as its first event. -/
theorem uploadPhase_mem (w : World) :
    Event.uploadReq ∈ (uploadPhase w).2 := by
  cases h : w.upload with
  | exn => simp [uploadPhase, h]
  | resp code body t =>
    by_cases hc : code = 200
    · subst hc
      cases body with
      | none => simp [uploadPhase, h]
      | some r =>
        by_cases hr : r.success = true <;> simp [uploadPhase, h, hr]
    · simp [uploadPhase, h, hc]

/-- The upload block records exactly one upload POST. -/
theorem uploadPhase_count (w : World) :
    uploadCount (uploadPhase w).2 = 1 := by
  cases h : w.upload with
  | exn => simp [uploadPhase, h, uploadCount, isUploadReq]
  | resp code body t =>
    by_cases hc : code = 200
    · subst hc
      cases body with
      | none => simp [uploadPhase, h, uploadCount, isUploadReq]
      | some r =>
        by_cases hr : r.success = true <;>
          simp [uploadPhase, h, hr, uploadCount, List.countP_cons, isUploadReq]
    · simp [uploadPhase, h, hc, uploadCount, isUploadReq]

/-- Upload counts add over concatenated traces. -/
theorem uploadCount_append (l1 l2 : List Event) :
    uploadCount (l1 ++ l2) = uploadCount l1 + uploadCount l2 := by
  simp [uploadCount, List.countP_append]

/-- If the first attempt returning status 200 is attempt `a + k` and at
least `k + 1` attempts remain, the wait loop returns success and issues no
health request beyond attempt `a + k`. -/
theorem wait_aux_first_ok (w : World) (d : Nat) :
    ∀ k a fuel, k < fuel →
      (∀ m, m < k → w.health (a + m) ≠ HealthResult.status 200) →
      w.health (a + k) = HealthResult.status 200 →
      (wait_for_server_aux w d a fuel).1 = true ∧
      ∀ m, Event.healthReq m ∈ (wait_for_server_aux w d a fuel).2 → m ≤ a + k := by
  intro k
  induction k with
  | zero =>
    intro a fuel hfuel _ hok
    obtain ⟨f, rfl⟩ : ∃ f, fuel = f + 1 := ⟨fuel - 1, by omega⟩
    have ha : w.health a = HealthResult.status 200 := by simpa using hok
    constructor
    · simp [wait_for_server_aux, ha]
    · intro m hm
      simp [wait_for_server_aux, ha] at hm
      omega
  | succ k ih =>
    intro a fuel hfuel hbefore hok
    obtain ⟨f, rfl⟩ : ∃ f, fuel = f + 1 := ⟨fuel - 1, by omega⟩
    have h0 : w.health a ≠ HealthResult.status 200 := by
      have := hbefore 0 (Nat.succ_pos k)
      simpa using this
    have hshiftb : ∀ m, m < k → w.health (a + 1 + m) ≠ HealthResult.status 200 := by
      intro m hm
      have := hbefore (m + 1) (by omega)
      have harith : a + (m + 1) = a + 1 + m := by omega
      rwa [harith] at this
    have hshiftok : w.health (a + 1 + k) = HealthResult.status 200 := by
      have harith : a + (k + 1) = a + 1 + k := by omega
      rwa [harith] at hok
    have hrec := ih (a + 1) f (by omega) hshiftb hshiftok
    cases hh : w.health a with
    | status code =>
      have hc : code ≠ 200 := by
        intro hc; exact h0 (by rw [hh, hc])
      refine ⟨by simp [wait_for_server_aux, hh, hc]; exact hrec.1, ?_⟩
      intro m hm
      simp [wait_for_server_aux, hh, hc] at hm
      rcases hm with hm | hm
      · omega
      · have := hrec.2 m hm
        omega
    | exn =>
      refine ⟨by simp [wait_for_server_aux, hh]; exact hrec.1, ?_⟩
      intro m hm
      simp [wait_for_server_aux, hh] at hm
      rcases hm with hm | hm
      · omega
      · have := hrec.2 m hm
        omega

/-- C2: if no health-check attempt within the 30-attempt budget returns
status 200, the run fails (exit code 1) and neither the import-status GET
nor the upload POST is ever issued. -/
theorem C2_health_exhaustion_fails_early (w : World)
    (hfail : ∀ k, k < 30 → w.health k ≠ HealthResult.status 200) :
    (import_students w).1 = false ∧ main_exit_code w = 1 ∧
    Event.statusReq ∉ (import_students w).2 ∧
    Event.uploadReq ∉ (import_students w).2 := by
  have hw : (wait_for_server w).1 = false := by
    apply wait_aux_never_ok w 5 30 0
    intro k hk
    simpa using hfail k hk
  refine ⟨by simp [import_students, hw], by simp [main_exit_code, import_students, hw], ?_, ?_⟩
  · simp only [import_students, hw, if_pos rfl]
    exact wait_no_statusReq w
  · simp only [import_students, hw, if_pos rfl]
    exact wait_no_uploadReq w

/-- Witness for C2 at a world whose health endpoint always raises. -/
def C2world : World :=
  ⟨fun _ => HealthResult.exn, StatusResult.resp 200 (some ⟨false⟩), true, 100,
    UploadResult.resp 200 (some ⟨true, some "ok", some 7⟩) ""⟩

/-- Witness for C2: on `C2world` every attempt raises, and the run fails
with no status or upload request. -/
theorem C2_witness :
    (import_students C2world).1 = false ∧ main_exit_code C2world = 1 ∧
    Event.statusReq ∉ (import_students C2world).2 ∧
    Event.uploadReq ∉ (import_students C2world).2 :=
  C2_health_exhaustion_fails_early C2world (by decide)

/-- C3: if the server becomes healthy, the status check does not confirm a
prior import, and the document file is absent, the run fails and the
upload POST is never issued. -/
theorem C3_missing_file_fails_before_upload (w : World)
    (hw : (wait_for_server w).1 = true)
    (hs : statusConfirmsImported w.statusCheck = false)
    (hf : w.fileExists = false) :
    (import_students w).1 = false ∧ main_exit_code w = 1 ∧
    Event.uploadReq ∉ (import_students w).2 := by
  have hw2 : ¬ (wait_for_server w).1 = false := by simp [hw]
  refine ⟨by simp [import_students, hw2, hs, hf],
    by simp [main_exit_code, import_students, hw2, hs, hf], ?_⟩
  simp only [import_students, if_neg hw2, hs, if_neg Bool.false_ne_true, hf, if_pos rfl]
  intro hmem
  rcases List.mem_append.mp hmem with hmem | hmem
  · exact wait_no_uploadReq w hmem
  · simp at hmem

/-- Witness world for C3: healthy server, status not yet imported, file
absent. -/
def C3world : World :=
  ⟨fun _ => HealthResult.status 200, StatusResult.resp 200 (some ⟨false⟩), false, 0,
    UploadResult.resp 200 (some ⟨true, some "ok", some 7⟩) ""⟩

/-- Witness for C3: on `C3world` the run fails without any upload POST. -/
theorem C3_witness :
    (import_students C3world).1 = false ∧ main_exit_code C3world = 1 ∧
    Event.uploadReq ∉ (import_students C3world).2 :=
  C3_missing_file_fails_before_upload C3world (by decide) (by decide) rfl

/-- C6: if the run reaches the upload step and the import endpoint answers
with an HTTP status outside the success range, the run fails and the
process exit code is 1. -/
theorem C6_upload_http_error_fails (w : World) (code : Nat)
    (body : Option UploadJson) (t : String)
    (hw : (wait_for_server w).1 = true)
    (hs : statusConfirmsImported w.statusCheck = false)
    (hf : w.fileExists = true)
    (hu : w.upload = UploadResult.resp code body t)
    (hc : ¬ (200 ≤ code ∧ code < 300)) :
    (import_students w).1 = false ∧ main_exit_code w = 1 := by
  have hw2 : ¬ (wait_for_server w).1 = false := by simp [hw]
  have hf2 : ¬ w.fileExists = false := by simp [hf]
  have hcne : ¬ code = 200 := by omega
  have hup : (uploadPhase w).1 = false := by
    simp [uploadPhase, hu, hcne]
  constructor
  · simp [import_students, hw2, hs, hf2, hup]
  · simp [main_exit_code, import_students, hw2, hs, hf2, hup]

/-- Witness world for C6: the upload POST returns HTTP 500. -/
def C6world : World :=
  ⟨fun _ => HealthResult.status 200, StatusResult.resp 200 (some ⟨false⟩), true, 100,
    UploadResult.resp 500 none "internal error"⟩

/-- Witness for C6: on `C6world` the run fails with exit code 1. -/
theorem C6_witness :
    (import_students C6world).1 = false ∧ main_exit_code C6world = 1 :=
  C6_upload_http_error_fails C6world 500 none "internal error"
    (by decide) (by decide) rfl rfl (by decide)

/-- C9: in every run the upload POST is issued at most once. -/
theorem C9_upload_at_most_once (w : World) :
    uploadCount (import_students w).2 ≤ 1 := by
  by_cases hw : (wait_for_server w).1 = false
  · simp [import_students, hw, wait_uploadCount]
  · by_cases hs : statusConfirmsImported w.statusCheck = true
    · have h1 := wait_uploadCount w
      simp only [import_students, if_neg hw, if_pos hs]
      rw [uploadCount_append, h1]
      simp [uploadCount, isUploadReq]
    · by_cases hf : w.fileExists = false
      · have h1 := wait_uploadCount w
        simp only [import_students, if_neg hw, if_neg hs, if_pos hf]
        rw [uploadCount_append, h1]
        simp [uploadCount, isUploadReq]
      · have h1 := wait_uploadCount w
        have h2 := uploadPhase_count w
        simp only [import_students, if_neg hw, if_neg hs, if_neg hf]
        rw [uploadCount_append, uploadCount_append, h1, h2]
        simp [uploadCount, isUploadReq]

/-- C10: if the upload POST answers HTTP 200 with a body that is not
parseable as JSON, the parse exception is caught and the run fails with
exit code 1 instead of propagating the exception. -/
theorem C10_unparseable_upload_body_fails (w : World) (t : String)
    (hw : (wait_for_server w).1 = true)
    (hs : statusConfirmsImported w.statusCheck = false)
    (hf : w.fileExists = true)
    (hu : w.upload = UploadResult.resp 200 none t) :
    (import_students w).1 = false ∧ main_exit_code w = 1 := by
  have hw2 : ¬ (wait_for_server w).1 = false := by simp [hw]
  have hf2 : ¬ w.fileExists = false := by simp [hf]
  have hup : (uploadPhase w).1 = false := by
    simp [uploadPhase, hu]
  constructor
  · simp [import_students, hw2, hs, hf2, hup]
  · simp [main_exit_code, import_students, hw2, hs, hf2, hup]

/-- Witness world for C10: upload answers HTTP 200 with an unparseable
body. -/
def C10world : World :=
  ⟨fun _ => HealthResult.status 200, StatusResult.exn, true, 100,
    UploadResult.resp 200 none "<html>not json</html>"⟩

/-- Witness for C10: on `C10world` the run fails with exit code 1. -/
theorem C10_witness :
    (import_students C10world).1 = false ∧ main_exit_code C10world = 1 :=
  C10_unparseable_upload_body_fails C10world "<html>not json</html>"
    (by decide) (by decide) rfl rfl

/-- Counterexample world for C1: healthy server, import-status answers
HTTP 500 with a well-formed body whose `imported` field is truthy, file
present, upload raises. -/
def C1world : World :=
  ⟨fun _ => HealthResult.status 200, StatusResult.resp 500 (some ⟨true⟩), true, 100,
    UploadResult.exn⟩

/-- Counterexample to C1 as stated: on `C1world` the import-status
endpoint responds with a well-formed JSON object whose `imported` field is
truthy, yet the run fails (exit code 1) and the upload POST is issued,
because the short-circuit additionally requires HTTP status 200. -/
theorem C1_counterexample :
    C1world.statusCheck = StatusResult.resp 500 (some ⟨true⟩) ∧
    (import_students C1world).1 = false ∧ main_exit_code C1world = 1 ∧
    Event.uploadReq ∈ (import_students C1world).2 := by
  decide

/-- C1 (amended): if the import-status endpoint responds with HTTP 200 and
a well-formed JSON object whose `imported` field is truthy, the run ends
with success (exit code 0) and never issues the upload POST, regardless of
whether the document file is present. -/
theorem C1_status_imported_short_circuit (w : World) (s : StatusJson)
    (hw : (wait_for_server w).1 = true)
    (hs : w.statusCheck = StatusResult.resp 200 (some s))
    (hi : s.imported = true) :
    (import_students w).1 = true ∧ main_exit_code w = 0 ∧
    Event.uploadReq ∉ (import_students w).2 := by
  have hw2 : ¬ (wait_for_server w).1 = false := by simp [hw]
  have hconf : statusConfirmsImported w.statusCheck = true := by
    simp [statusConfirmsImported, hs, hi]
  refine ⟨by simp [import_students, hw2, hconf],
    by simp [main_exit_code, import_students, hw2, hconf], ?_⟩
  simp only [import_students, if_neg hw2, hconf, if_pos rfl]
  intro hmem
  rcases List.mem_append.mp hmem with hmem | hmem
  · exact wait_no_uploadReq w hmem
  · simp at hmem

/-- Witness world for the amended C1: prior import confirmed over HTTP
200 while the document file is absent. -/
def C1witWorld : World :=
  ⟨fun _ => HealthResult.status 200, StatusResult.resp 200 (some ⟨true⟩), false, 0,
    UploadResult.exn⟩

/-- Witness for the amended C1: on `C1witWorld` the run succeeds without
an upload POST even though the file is absent. -/
theorem C1_witness :
    (import_students C1witWorld).1 = true ∧ main_exit_code C1witWorld = 0 ∧
    Event.uploadReq ∉ (import_students C1witWorld).2 :=
  C1_status_imported_short_circuit C1witWorld ⟨true⟩ (by decide) rfl rfl

/-- C4: if the import-status request raises an exception, either directly
(unreachable, timeout) or because a 200 response body is unparseable, the
run is not terminated there: it proceeds to the file-existence check, and
when the file is present it issues the upload POST. -/
theorem C4_status_exception_fail_open (w : World)
    (hw : (wait_for_server w).1 = true)
    (hs : w.statusCheck = StatusResult.exn ∨
      w.statusCheck = StatusResult.resp 200 none) :
    (w.fileExists = true → Event.uploadReq ∈ (import_students w).2) ∧
    (w.fileExists = false → (import_students w).1 = false ∧
      main_exit_code w = 1) := by
  have hw2 : ¬ (wait_for_server w).1 = false := by simp [hw]
  have hconf : ¬ statusConfirmsImported w.statusCheck = true := by
    rcases hs with hs | hs <;> simp [statusConfirmsImported, hs]
  constructor
  · intro hf
    have hf2 : ¬ w.fileExists = false := by simp [hf]
    simp only [import_students, if_neg hw2, if_neg hconf, if_neg hf2]
    refine List.mem_append.mpr (Or.inr ?_)
    exact uploadPhase_mem w
  · intro hf
    constructor
    · simp [import_students, hw2, hconf, hf]
    · simp [main_exit_code, import_students, hw2, hconf, hf]

/-- Witness world for C4: the import-status request times out, the file is
present, the upload succeeds. -/
def C4world : World :=
  ⟨fun _ => HealthResult.status 200, StatusResult.exn, true, 100,
    UploadResult.resp 200 (some ⟨true, some "done", some 3⟩) ""⟩

/-- Witness for C4: on `C4world` the status exception is tolerated and the
upload POST is issued. -/
theorem C4_witness :
    (C4world.fileExists = true → Event.uploadReq ∈ (import_students C4world).2) ∧
    (C4world.fileExists = false → (import_students C4world).1 = false ∧
      main_exit_code C4world = 1) :=
  C4_status_exception_fail_open C4world (by decide) (Or.inl rfl)

/-- Counterexample world for C5: the upload answers HTTP 201 (a success
status) with a truthy `success` body and count 42. -/
def C5world : World :=
  ⟨fun _ => HealthResult.status 200, StatusResult.resp 200 (some ⟨false⟩), true, 100,
    UploadResult.resp 201 (some ⟨true, some "ok", some 42⟩) ""⟩

/-- Counterexample to C5 as stated: on `C5world` the upload answers with a
status in the HTTP success range (201) and a truthy `success` field, yet
the run fails with exit code 1, because the code accepts only status
exactly 200. -/
theorem C5_counterexample :
    C5world.upload = UploadResult.resp 201 (some ⟨true, some "ok", some 42⟩) "" ∧
    200 ≤ 201 ∧ 201 < 300 ∧
    (import_students C5world).1 = false ∧ main_exit_code C5world = 1 := by
  decide

/-- C5 (amended): if the server becomes healthy, the status check does not
confirm a prior import, the file is present, and the upload answers HTTP
status exactly 200 with a body whose `success` field is truthy, the run
ends with success (exit code 0) and the imported-count figure of the
response is logged. -/
theorem C5_upload_success_logs_count (w : World) (r : UploadJson) (t : String)
    (hw : (wait_for_server w).1 = true)
    (hs : statusConfirmsImported w.statusCheck = false)
    (hf : w.fileExists = true)
    (hu : w.upload = UploadResult.resp 200 (some r) t)
    (hr : r.success = true) :
    (import_students w).1 = true ∧ main_exit_code w = 0 ∧
    Event.logImported r.imported ∈ (import_students w).2 := by
  have hw2 : ¬ (wait_for_server w).1 = false := by simp [hw]
  have hf2 : ¬ w.fileExists = false := by simp [hf]
  have hup : uploadPhase w =
      (true, [Event.uploadReq, Event.logImported r.imported]) := by
    simp [uploadPhase, hu, hr]
  refine ⟨by simp [import_students, hw2, hs, hf2, hup],
    by simp [main_exit_code, import_students, hw2, hs, hf2, hup], ?_⟩
  simp only [import_students, if_neg hw2, hs, if_neg Bool.false_ne_true,
    if_neg hf2, hup]
  refine List.mem_append.mpr (Or.inr ?_)
  simp

/-- Witness world for the amended C5: the upload answers HTTP 200 with
`success` truthy and imported count 42. -/
def C5witWorld : World :=
  ⟨fun _ => HealthResult.status 200, StatusResult.resp 200 (some ⟨false⟩), true, 100,
    UploadResult.resp 200 (some ⟨true, some "ok", some 42⟩) ""⟩

/-- Witness for the amended C5: on `C5witWorld` the run succeeds and logs
the count 42. -/
theorem C5_witness :
    (import_students C5witWorld).1 = true ∧ main_exit_code C5witWorld = 0 ∧
    Event.logImported (some 42) ∈ (import_students C5witWorld).2 :=
  C5_upload_success_logs_count C5witWorld ⟨true, some "ok", some 42⟩ ""
    (by decide) (by decide) rfl rfl rfl

/-- Counterexample world for C7: the health endpoint always answers HTTP
204, a status in the success range. -/
def C7world : World :=
  ⟨fun _ => HealthResult.status 204, StatusResult.exn, true, 100, UploadResult.exn⟩

/-- Counterexample to C7 as stated: on `C7world` every health attempt
answers HTTP 204, which lies in the 2xx success range, yet the wait loop
does not return success on the first attempt: it keeps consuming attempts
(attempt 1 is issued) and ends in failure, because the code accepts only
status exactly 200. -/
theorem C7_counterexample :
    C7world.health 0 = HealthResult.status 204 ∧
    200 ≤ 204 ∧ 204 < 300 ∧
    (wait_for_server C7world).1 = false ∧
    Event.healthReq 1 ∈ (wait_for_server C7world).2 := by
  decide

/-- C7 (amended): if attempt `n` (within the 30-attempt budget) is the
first to answer HTTP status exactly 200, `wait_for_server` returns success
and issues no health request after attempt `n`. -/
theorem C7_health_200_returns_immediately (w : World) (n : Nat)
    (hn : n < 30)
    (hbefore : ∀ m, m < n → w.health m ≠ HealthResult.status 200)
    (hok : w.health n = HealthResult.status 200) :
    (wait_for_server w).1 = true ∧
    ∀ m, Event.healthReq m ∈ (wait_for_server w).2 → m ≤ n := by
  have h := wait_aux_first_ok w 5 n 0 30 hn
    (by intro m hm; simpa using hbefore m hm) (by simpa using hok)
  refine ⟨h.1, ?_⟩
  intro m hm
  have := h.2 m hm
  omega

/-- Witness world for the amended C7: attempt 0 times out, attempt 1
answers HTTP 200. -/
def C7witWorld : World :=
  ⟨fun n => if n = 0 then HealthResult.exn else HealthResult.status 200,
    StatusResult.exn, false, 0, UploadResult.exn⟩

/-- Witness for the amended C7: on `C7witWorld` the wait loop succeeds at
attempt 1 and issues no later health request. -/
theorem C7_witness :
    (wait_for_server C7witWorld).1 = true ∧
    ∀ m, Event.healthReq m ∈ (wait_for_server C7witWorld).2 → m ≤ 1 :=
  C7_health_200_returns_immediately C7witWorld 1 (by decide)
    (by decide) (by decide)

/-- Counterexample world for C8: attempt 0 answers HTTP 500 (an
unsuccessful response without an exception), attempt 1 answers HTTP
200. -/
def C8world : World :=
  ⟨fun n => if n = 0 then HealthResult.status 500 else HealthResult.status 200,
    StatusResult.exn, false, 0, UploadResult.exn⟩

/-- Counterexample to C8 as stated: on `C8world` attempt 0 is unsuccessful
(HTTP 500), yet no sleep of the configured 5-unit delay occurs before
attempt 1 — the whole wait trace is the two health requests with no sleep
event at all, because the code sleeps only in the exception handler. -/
theorem C8_counterexample :
    C8world.health 0 = HealthResult.status 500 ∧
    (wait_for_server C8world).2 = [Event.healthReq 0, Event.healthReq 1] ∧
    Event.sleep 5 ∉ (wait_for_server C8world).2 := by
  decide

/-- C8 (amended): after a health attempt that raises an exception, the
loop sleeps the configured delay before the next attempt; after an
attempt that merely returns a non-200 response, it proceeds to the next
attempt immediately, with no sleep in between. -/
theorem C8_sleep_only_after_exception (w : World) (d a fuel : Nat) :
    (w.health a = HealthResult.exn →
      (wait_for_server_aux w d a (fuel + 1)).2 =
        Event.healthReq a :: Event.sleep d ::
          (wait_for_server_aux w d (a + 1) fuel).2) ∧
    (∀ c, w.health a = HealthResult.status c → c ≠ 200 →
      (wait_for_server_aux w d a (fuel + 1)).2 =
        Event.healthReq a :: (wait_for_server_aux w d (a + 1) fuel).2) := by
  constructor
  · intro h
    simp [wait_for_server_aux, h]
  · intro c h hc
    simp [wait_for_server_aux, h, hc]

/-- Witness for the amended C8, exception branch: on `C8witWorld` (health
always raises) the first attempt is followed by a sleep of the default
5-unit delay. -/
def C8witWorld : World :=
  ⟨fun _ => HealthResult.exn, StatusResult.exn, false, 0, UploadResult.exn⟩

/-- Witness for the amended C8: applying the exception branch at attempt 0
of `C8witWorld` with the default delay 5 and 29 remaining attempts. -/
theorem C8_witness :
    (wait_for_server_aux C8witWorld 5 0 (29 + 1)).2 =
      Event.healthReq 0 :: Event.sleep 5 ::
        (wait_for_server_aux C8witWorld 5 1 29).2 :=
  (C8_sleep_only_after_exception C8witWorld 5 0 29).1 rfl
